import Mathlib

/-!
Verification development for the Peplink local-API client
(custom_components/peplink_local/peplink_api.py).

The Python client is embedded shallowly:

* JSON values become the inductive type `Peplink.Json` (numbers are
  modelled as integers: every numeric literal the claims exercise is
  integral, and Python float conversions of integral values are the
  identity on the represented number).
* The mutable fields of the `PeplinkAPI` object (`_connected`,
  `_auth_cookie`, `_session`, `_own_session`) become the record
  `Peplink.ClientState`, threaded explicitly.
* Network traffic is modelled by a script: a list of connect-handshake
  environments (one consumed per login handshake that actually runs)
  and a list of request outcomes (one consumed per `session.request`
  issued by `_api_request`).  The record `Peplink.S` bundles the client
  state, the script, and two instrumentation counters (data requests
  issued, forced re-authentication calls).
* Python exceptions become `Peplink.PyErr`; fallible code returns
  `Except PyErr A`.  `PyErr.typeError` stands uniformly for the
  TypeError / AttributeError / ValueError family raised by dictionary
  and conversion operations applied to values of the wrong shape.
-/

namespace Peplink

/-- JSON values as delivered by `response.json()`.  Object fields keep
insertion order, matching Python dict semantics. -/
inductive Json where
  | null : Json
  | str (s : String) : Json
  | num (n : Int) : Json
  | bool (b : Bool) : Json
  | arr (elems : List Json) : Json
  | obj (fields : List (String × Json)) : Json
deriving Repr

/-- Dictionary lookup: first binding of the key, in insertion order. -/
def lookupField : List (String × Json) → String → Option Json
  | [], _ => none
  | (k, v) :: rest, key => if k = key then some v else lookupField rest key

/-- Dictionary update, Python style: replace the first binding in
place, otherwise append at the end. -/
def setFields : List (String × Json) → String → Json → List (String × Json)
  | [], key, v => [(key, v)]
  | (k, w) :: rest, key, v =>
      if k = key then (key, v) :: rest else (k, w) :: setFields rest key v

/-- Python `d.get(k)` for dict-shaped values; `none` otherwise. -/
def Json.getField : Json → String → Option Json
  | .obj fields, key => lookupField fields key
  | _, _ => none

/-- Python `k in d` for dict-shaped values (the claims only exercise
this test on dictionaries). -/
def Json.hasField (j : Json) (key : String) : Bool :=
  (j.getField key).isSome

/-- Does field `key` of `j` hold exactly the string `v`?  This is the
Python comparison `d.get(key) == v` for a string literal `v`. -/
def jsonFieldIsStr (j : Json) (key v : String) : Bool :=
  match j.getField key with
  | some (.str s) => s == v
  | _ => false

/-- Does field `key` of `j` hold exactly the integer `v`?  Python
`d.get(key) == v` for an integer literal `v` (a string value never
compares equal to an integer in Python). -/
def jsonFieldIsNum (j : Json) (key : String) (v : Int) : Bool :=
  match j.getField key with
  | some (.num n) => n == v
  | _ => false

/-- Body-level authentication failure test used twice in
`_api_request`: `response_data.get("stat") == "fail" and
response_data.get("code") == 401`. -/
def fail401 (d : Json) : Bool :=
  jsonFieldIsStr d "stat" "fail" && jsonFieldIsNum d "code" 401

/-- Python `str.isdigit` restricted to ASCII digits. -/
def pyIsDigit (s : String) : Bool :=
  s != "" && s.toList.all Char.isDigit

/-- Python truthiness of a JSON value. -/
def pyTruthy : Json → Bool
  | .null => false
  | .str s => s != ""
  | .num n => n != 0
  | .bool b => b
  | .arr elems => !elems.isEmpty
  | .obj fields => !fields.isEmpty

/-- Python truthiness of the cached auth cookie (`not self._auth_cookie`
is true for both `None` and the empty string). -/
def cookieTruthy : Option String → Bool
  | some v => v != ""
  | none => false

/-- The result of parsing the body of an HTTP response with
`response.json()`. -/
inductive Body where
  | parsed (j : Json) : Body
  | decodeError : Body
  | contentTypeError : Body

/-- One HTTP response: status code, body-parse outcome, the `bauth`
entry of `response.cookies`, and the raw `Set-Cookie` header. -/
structure HttpResponse where
  status : Nat
  body : Body
  cookieBauth : Option String
  setCookieHeader : Option String

/-- Outcome of one network call: a connector-level certificate error,
a connector-level connection error, another `aiohttp.ClientError`, or
an HTTP response. -/
inductive ReqOutcome where
  | certError : ReqOutcome
  | connError : ReqOutcome
  | clientError : ReqOutcome
  | response (r : HttpResponse) : ReqOutcome

/-- Environment for one login handshake of `connect`: the outcome of
the login POST and the outcome of the verification GET. -/
structure ConnectEnv where
  login : ReqOutcome
  verify : ReqOutcome

/-- Python exceptions that can cross function boundaries in this
client. -/
inductive PyErr where
  | plainExn (msg : String) : PyErr
  | sslError : PyErr
  | jsonDecodeError : PyErr
  | clientError : PyErr
  | typeError : PyErr

/-- The mutable fields of a `PeplinkAPI` instance. -/
structure ClientState where
  connected : Bool
  authCookie : Option String
  sessionPresent : Bool
  ownSession : Bool

/-- The scripted network environment. -/
structure World where
  connects : List ConnectEnv
  responses : List ReqOutcome

/-- Client state, network script, and instrumentation counters:
`dataReqs` counts the `session.request` calls issued by `_api_request`,
`forced` counts the `ensure_connected(force_reconnect=True)` calls. -/
structure S where
  cs : ClientState
  world : World
  dataReqs : Nat
  forced : Nat

/-- `_get_session`: create the session (and take ownership) if none is
present. -/
def getSession (s : S) : S :=
  if s.cs.sessionPresent then s
  else { s with cs := { s.cs with sessionPresent := true, ownSession := true } }

def setConnected (b : Bool) (s : S) : S :=
  { s with cs := { s.cs with connected := b } }

def setCookie (v : Option String) (s : S) : S :=
  { s with cs := { s.cs with authCookie := v } }

/-- Environment used when the handshake script is exhausted: the login
POST fails with a connection error. -/
def exhaustedEnv : ConnectEnv := ⟨.connError, .connError⟩

/-- Consume the next scripted handshake environment. -/
def popConnect (s : S) : ConnectEnv × S :=
  match s.world.connects with
  | [] => (exhaustedEnv, s)
  | c :: rest => (c, { s with world := { connects := rest, responses := s.world.responses } })

/-- Consume the next scripted data-request outcome, counting the
request.  An exhausted script behaves like a connection error. -/
def popResponse (s : S) : ReqOutcome × S :=
  match s.world.responses with
  | [] => (.clientError, { s with dataReqs := s.dataReqs + 1 })
  | r :: rest =>
      (r, { s with world := { connects := s.world.connects, responses := rest },
                   dataReqs := s.dataReqs + 1 })

/-- Scan of the `Set-Cookie` header (lines 126-138 of the source):
split on semicolons, find the first part whose strip starts with
`bauth=`, and take everything after the first equals sign. -/
def extractBauthFromHeader (h : String) : Option String :=
  match (h.splitOn ";").find? (fun p => p.trim.startsWith "bauth=") with
  | some p => some (String.intercalate "=" ((p.trim.splitOn "=").drop 1))
  | none => none

/-- Python substring test used by the guard on line 130. -/
def strContainsBauth (h : String) : Bool :=
  (h.splitOn "bauth=").length ≥ 2

/-- `connect` (lines 81-181): login POST, cookie extraction,
verification GET.  Returns the boolean result or a raised exception,
with the updated state. -/
def connect (s0 : S) : Except PyErr Bool × S :=
  if s0.cs.connected then (.ok true, s0)
  else
    let s := getSession s0
    let (env, s) := popConnect s
    match env.login with
    | .certError => (.error .sslError, setConnected false s)
    | .connError => (.ok false, setConnected false s)
    | .clientError => (.ok false, setConnected false s)
    | .response r =>
      if r.status = 401 then (.ok false, s)
      else if 400 ≤ r.status then (.ok false, setConnected false s)
      else
        match r.body with
        | .decodeError => (.error .jsonDecodeError, s)
        | .contentTypeError => (.ok false, setConnected false s)
        | .parsed d =>
          if jsonFieldIsStr d "stat" "ok" then
            let s := match r.cookieBauth with
                     | some v => setCookie (some v) s
                     | none => s
            let s := if cookieTruthy s.cs.authCookie then s
                     else
                       match r.setCookieHeader with
                       | some h =>
                         if strContainsBauth h then
                           match extractBauthFromHeader h with
                           | some v => setCookie (some v) s
                           | none => s
                         else s
                       | none => s
            if cookieTruthy s.cs.authCookie then
              match env.verify with
              | .certError => (.ok false, setConnected false s)
              | .connError => (.ok false, setConnected false s)
              | .clientError => (.ok false, setConnected false s)
              | .response rv =>
                if rv.status = 401 then (.ok false, s)
                else if 400 ≤ rv.status then (.ok false, setConnected false s)
                else
                  match rv.body with
                  | .decodeError => (.error .jsonDecodeError, s)
                  | .contentTypeError => (.ok false, setConnected false s)
                  | .parsed _ => (.ok true, setConnected true s)
            else (.ok false, s)
          else (.ok false, s)

/-- `ensure_connected` (lines 183-195).  The only cached state it
resets before reconnecting is the `_connected` flag. -/
def ensureConnected (force : Bool) (s : S) : Except PyErr Bool × S :=
  let s := if force then { s with forced := s.forced + 1 } else s
  if !s.cs.connected || force then connect (setConnected false s)
  else (.ok true, s)

/-- `close` (lines 927-933): release the session only when the client
owns one. -/
def close (s : S) : S :=
  if s.cs.ownSession && s.cs.sessionPresent then
    { s with cs := { s.cs with connected := false, sessionPresent := false, ownSession := false } }
  else s

/-- Body of the `try` block of `_api_request` (lines 214-266), entered
with the connection check already done.  `aiohttp.ClientError`
instances (including the responses rejected by `raise_for_status` and
content-type failures of `response.json()`) are converted by the final
handler into a plain `Exception`; JSON decode errors and the
exceptions raised by the nested reconnect logic propagate unchanged. -/
def apiRequestBody (s1 : S) : Except PyErr Json × S :=
  let s := getSession s1
  let (out, s) := popResponse s
  match out with
  | .certError => (.error (.plainExn "API request error"), s)
  | .connError => (.error (.plainExn "API request error"), s)
  | .clientError => (.error (.plainExn "API request error"), s)
  | .response resp =>
    if resp.status = 401 then
      match ensureConnected true s with
      | (.ok true, s) =>
        let (out2, s) := popResponse s
        match out2 with
        | .response r2 =>
          if r2.status = 401 then
            (.error (.plainExn "Unauthorized (code: 401)"), s)
          else if 400 ≤ r2.status then (.error (.plainExn "API request error"), s)
          else
            match r2.body with
            | .decodeError => (.error .jsonDecodeError, s)
            | .contentTypeError => (.error (.plainExn "API request error"), s)
            | .parsed d2 =>
              if fail401 d2 then
                (.error (.plainExn "Unauthorized API response (code: 401)"), s)
              else (.ok d2, s)
        | _ => (.error (.plainExn "API request error"), s)
      | (.ok false, s) =>
        (.error (.plainExn "Failed to reconnect, unauthorized (code: 401)"), s)
      | (.error e, s) => (.error e, s)
    else if 400 ≤ resp.status then (.error (.plainExn "API request error"), s)
    else
      match resp.body with
      | .decodeError => (.error .jsonDecodeError, s)
      | .contentTypeError => (.error (.plainExn "API request error"), s)
      | .parsed d =>
        if fail401 d then
          match ensureConnected true s with
          | (.ok true, s) =>
            let (out2, s) := popResponse s
            match out2 with
            | .response r2 =>
              if 400 ≤ r2.status then (.error (.plainExn "API request error"), s)
              else
                match r2.body with
                | .decodeError => (.error .jsonDecodeError, s)
                | .contentTypeError => (.error (.plainExn "API request error"), s)
                | .parsed d2 =>
                  if fail401 d2 then
                    (.error (.plainExn "Unauthorized API response after reconnect (code: 401)"), s)
                  else (.ok d2, s)
            | _ => (.error (.plainExn "API request error"), s)
          | (.ok false, s) =>
            (.error (.plainExn "Failed to reconnect for API-level 401 error"), s)
          | (.error e, s) => (.error e, s)
        else (.ok d, s)

/-- `_api_request` (lines 197-266): connect first if needed, then run
the request/retry body. -/
def apiRequest (s0 : S) : Except PyErr Json × S :=
  if s0.cs.connected then apiRequestBody s0
  else
    match connect s0 with
    | (.ok true, s) => apiRequestBody s
    | (.ok false, s) => (.error (.plainExn "Not connected to Peplink router"), s)
    | (.error e, s) => (.error e, s)

/-- `_make_api_request` (lines 302-331): ensure authentication, then
perform the request.  URL formatting has no effect on the scripted
environment and is omitted. -/
def makeApiRequest (s : S) : Except PyErr Json × S :=
  match ensureConnected false s with
  | (.ok true, s) => apiRequest s
  | (.ok false, s) => (.error (.plainExn "Not connected to Peplink router"), s)
  | (.error e, s) => (.error e, s)

/-! ### get_wan_status (lines 333-398) -/

/-- Canonical empty WAN container. -/
def wanEmpty : Json := .obj [("connection", .arr [])]

/-- The three in-place updates applied to one numeric-keyed WAN entry
(lines 377-379): set `id` to the key, default `name` to `WAN <id>` and
`status` to `unknown` when absent. -/
def defaultedWanFields (key : String) (fields : List (String × Json)) : List (String × Json) :=
  let f1 := setFields fields "id" (.str key)
  let f2 := setFields f1 "name" ((lookupField f1 "name").getD (.str ("WAN " ++ key)))
  setFields f2 "status" ((lookupField f2 "status").getD (.str "unknown"))

/-- The loop of lines 373-380: keep digit-keyed entries, mutate them,
skip the rest.  Assigning into a non-dict value raises. -/
def processWanItems : List (String × Json) → Except PyErr (List Json)
  | [] => .ok []
  | (key, v) :: rest =>
    if pyIsDigit key then
      match v with
      | .obj fields =>
        match processWanItems rest with
        | .ok l => .ok (.obj (defaultedWanFields key fields) :: l)
        | .error e => .error e
      | _ => .error .typeError
    else processWanItems rest

/-- Envelope dispatch of `get_wan_status` (lines 360-391): failure
envelope, nested numeric-keyed success shape, flat `connection`
passthrough, or the logged default. -/
def wanNormalize (response : Json) : Except PyErr Json :=
  if jsonFieldIsStr response "stat" "fail" then .ok wanEmpty
  else if jsonFieldIsStr response "stat" "ok" && response.hasField "response" then
    match response.getField "response" with
    | some (.obj fields) =>
      match processWanItems fields with
      | .ok wans => .ok (.obj [("connection", .arr wans)])
      | .error e => .error e
    | some _ => .error .typeError
    | none => .ok wanEmpty
  else if response.hasField "connection" then .ok response
  else .ok wanEmpty

/-- `get_wan_status` (lines 333-398).  Only `aiohttp.ClientError` and
`json.JSONDecodeError` are caught; all other exceptions reach the
caller. -/
def getWanStatus (s : S) : Except PyErr Json × S :=
  let (r, s1) := makeApiRequest s
  let res := match r with
             | .ok response => wanNormalize response
             | .error e => .error e
  match res with
  | .error .clientError => (.ok wanEmpty, s1)
  | .error .jsonDecodeError => (.ok wanEmpty, s1)
  | other => (other, s1)

/-! ### get_clients (lines 400-460) -/

/-- Canonical empty client container. -/
def clientEmpty : Json := .obj [("client", .arr [])]

/-- The loop of lines 438-442: mark each client connected and default
`mac` and `name` (falling back to `hostname`). -/
def processClientItems : List Json → Except PyErr (List Json)
  | [] => .ok []
  | c :: rest =>
    match c with
    | .obj fields =>
      let f1 := setFields fields "connected" (.bool true)
      let f2 := setFields f1 "mac" ((lookupField f1 "mac").getD (.str "unknown"))
      let f3 := setFields f2 "name"
        ((lookupField f2 "name").getD ((lookupField f2 "hostname").getD (.str "Unknown Device")))
      match processClientItems rest with
      | .ok l => .ok (.obj f3 :: l)
      | .error e => .error e
    | _ => .error .typeError

/-- Envelope dispatch of `get_clients` (lines 427-453). -/
def clientsNormalize (response : Json) : Except PyErr Json :=
  if jsonFieldIsStr response "stat" "fail" then .ok clientEmpty
  else
    let nested : Option (Except PyErr Json) :=
      if jsonFieldIsStr response "stat" "ok" then
        match response.getField "response" with
        | some inner =>
          match inner.getField "list" with
          | some (.arr cs) =>
            match processClientItems cs with
            | .ok l => some (.ok (Json.obj [("client", .arr l)]))
            | .error e => some (.error e)
          | some _ => some (.error .typeError)
          | none => none
        | none => none
      else none
    match nested with
    | some r => r
    | none => if response.hasField "client" then .ok response else .ok clientEmpty

/-- `get_clients` (lines 400-460); same narrow exception handling as
`get_wan_status`. -/
def getClients (s : S) : Except PyErr Json × S :=
  let (r, s1) := makeApiRequest s
  let res := match r with
             | .ok response => clientsNormalize response
             | .error e => .error e
  match res with
  | .error .clientError => (.ok clientEmpty, s1)
  | .error .jsonDecodeError => (.ok clientEmpty, s1)
  | other => (other, s1)

/-! ### get_traffic_stats (lines 743-865) -/

/-- Canonical empty traffic container. -/
def statsEmpty : Json := .obj [("stats", .arr [])]

/-- Python dict-key equality for the primitive JSON values usable as
keys of `wan_interfaces` (Python booleans compare equal to the
corresponding integers). -/
def primKeyEq : Json → Json → Bool
  | .null, .null => true
  | .str a, .str b => a == b
  | .num a, .num b => a == b
  | .bool a, .bool b => a == b
  | .bool a, .num b => (if a then (1 : Int) else 0) == b
  | .num a, .bool b => a == (if b then (1 : Int) else 0)
  | _, _ => false

/-- Association-list update with Python dict semantics (replace in
place, else append). -/
def assocSet (l : List (Json × Json)) (k v : Json) : List (Json × Json) :=
  match l with
  | [] => [(k, v)]
  | (k0, v0) :: rest =>
      if primKeyEq k0 k then (k0, v) :: rest else (k0, v0) :: assocSet rest k v

/-- Association-list lookup. -/
def assocGet : List (Json × Json) → Json → Option Json
  | [], _ => none
  | (k0, v) :: rest, k => if primKeyEq k0 k then some v else assocGet rest k

/-- The loop of lines 768-771 building `wan_interfaces` from the
`connection` list: one entry per element carrying both `id` and
`name`.  Non-dict elements and unhashable keys raise. -/
def collectConns : List Json → List (Json × Json) → Except PyErr (List (Json × Json))
  | [], acc => .ok acc
  | c :: rest, acc =>
    match c with
    | .obj _ =>
      match c.getField "id", c.getField "name" with
      | some k, some v =>
        match k with
        | .arr _ => .error .typeError
        | .obj _ => .error .typeError
        | _ => collectConns rest (assocSet acc k v)
      | _, _ => collectConns rest acc
    | _ => .error .typeError

/-- `wan_interfaces` as built on lines 766-771 from the value returned
by `get_wan_status`. -/
def collectWanInterfaces (wanStatus : Json) : Except PyErr (List (Json × Json)) :=
  match wanStatus.getField "connection" with
  | some (.arr conns) => collectConns conns []
  | some _ => .error .typeError
  | none => .ok []

/-- One stats entry of the `status.traffic` attempt (lines 791-799):
the byte and rate counters are copied verbatim from the `rx`, `tx`,
`rx_rate` and `tx_rate` fields, defaulting to `0`. -/
def trafficEntry1 (wanId : String) (wd : Json) (wi : List (Json × Json)) : Json :=
  .obj [("wan_id", .str wanId),
        ("name", (wd.getField "name").getD
                   ((assocGet wi (.str wanId)).getD (.str ("WAN " ++ wanId)))),
        ("rx_bytes", (wd.getField "rx").getD (.num 0)),
        ("tx_bytes", (wd.getField "tx").getD (.num 0)),
        ("rx_rate", (wd.getField "rx_rate").getD (.num 0)),
        ("tx_rate", (wd.getField "tx_rate").getD (.num 0)),
        ("unit", .str "bytes")]

/-- The loop of lines 785-800 over the `status.traffic` payload. -/
def buildStats1 : List (String × Json) → List (Json × Json) → Except PyErr (List Json)
  | [], _ => .ok []
  | (wanId, wd) :: rest, wi =>
    if pyIsDigit wanId then
      match wd with
      | .obj _ =>
        match buildStats1 rest wi with
        | .ok l => .ok (trafficEntry1 wanId wd wi :: l)
        | .error e => .error e
      | _ => .error .typeError
    else buildStats1 rest wi

/-- One stats entry of the `status.wan.statistics` attempt (lines
823-831): `rx_bytes` falls back from `rx_bytes` to `rx` to `0`, the
name comes from `wan_interfaces` only. -/
def trafficEntry2 (wanId : String) (wd : Json) (wi : List (Json × Json)) : Json :=
  .obj [("wan_id", .str wanId),
        ("name", (assocGet wi (.str wanId)).getD (.str ("WAN " ++ wanId))),
        ("rx_bytes", (wd.getField "rx_bytes").getD ((wd.getField "rx").getD (.num 0))),
        ("tx_bytes", (wd.getField "tx_bytes").getD ((wd.getField "tx").getD (.num 0))),
        ("rx_rate", (wd.getField "rx_rate").getD (.num 0)),
        ("tx_rate", (wd.getField "tx_rate").getD (.num 0)),
        ("unit", .str "bytes")]

/-- The loop of lines 819-832. -/
def buildStats2 : List (String × Json) → List (Json × Json) → Except PyErr (List Json)
  | [], _ => .ok []
  | (wanId, wd) :: rest, wi =>
    if pyIsDigit wanId then
      match wd with
      | .obj _ =>
        match buildStats2 rest wi with
        | .ok l => .ok (trafficEntry2 wanId wd wi :: l)
        | .error e => .error e
      | _ => .error .typeError
    else buildStats2 rest wi

/-- First endpoint attempt (lines 777-806).  Any exception is caught
by the surrounding `except` and turns into a fallthrough (`none`);
`none` also models an empty `wan_stats`. -/
def trafficAttempt1 (r : Except PyErr Json) (wi : List (Json × Json)) : Option Json :=
  match r with
  | .error _ => none
  | .ok response =>
    if jsonFieldIsStr response "stat" "ok" && response.hasField "response" then
      match response.getField "response" with
      | some (.obj fields) =>
        match buildStats1 fields wi with
        | .ok ws => if ws.isEmpty then none else some (.obj [("stats", .arr ws)])
        | .error _ => none
      | _ => none
    else none

/-- Second endpoint attempt (lines 809-838); a non-dict payload is
skipped by the explicit `isinstance` check rather than by an
exception, with the same fallthrough result. -/
def trafficAttempt2 (r : Except PyErr Json) (wi : List (Json × Json)) : Option Json :=
  match r with
  | .error _ => none
  | .ok response =>
    if jsonFieldIsStr response "stat" "ok" && response.hasField "response" then
      match response.getField "response" with
      | some (.obj fields) =>
        match buildStats2 fields wi with
        | .ok ws => if ws.isEmpty then none else some (.obj [("stats", .arr ws)])
        | .error _ => none
      | _ => none
    else none

/-- Zero-valued placeholder entries (lines 843-854), one per known WAN
interface, in insertion order. -/
def placeholderStats (wi : List (Json × Json)) : List Json :=
  wi.map (fun p =>
    .obj [("wan_id", p.1), ("name", p.2), ("rx_bytes", .num 0), ("tx_bytes", .num 0),
          ("rx_rate", .num 0), ("tx_rate", .num 0), ("unit", .str "bytes")])

/-- `get_traffic_stats` (lines 743-865): collect the known interfaces
from `get_wan_status`, try the two traffic endpoints in order and
return the first non-empty result, else zero placeholders for the
known interfaces, else the canonical empty container.  The outer
`except` absorbs every exception. -/
def getTrafficStats (s : S) : Except PyErr Json × S :=
  let (wr, s1) := getWanStatus s
  match wr with
  | .error _ => (.ok statsEmpty, s1)
  | .ok wanStatus =>
    match collectWanInterfaces wanStatus with
    | .error _ => (.ok statsEmpty, s1)
    | .ok wi =>
      let (t1, s2) := makeApiRequest s1
      match trafficAttempt1 t1 wi with
      | some j => (.ok j, s2)
      | none =>
        let (t2, s3) := makeApiRequest s2
        match trafficAttempt2 t2 wi with
        | some j => (.ok j, s3)
        | none =>
          if wi.isEmpty then (.ok statsEmpty, s3)
          else (.ok (.obj [("stats", .arr (placeholderStats wi))]), s3)

/-! ### get_system_info, get_thermal_sensors, get_fan_speeds,
get_device_info (lines 462-741) -/

/-- Python `float(x)` on a JSON value, with numbers modelled as
integers (every conversion the client performs is applied to integral
counters or passed through). -/
def pyFloat (j : Json) : Except PyErr Json :=
  match j with
  | .num n => .ok (.num n)
  | .bool b => .ok (.num (if b then 1 else 0))
  | .str s => match s.toInt? with
              | some n => .ok (.num n)
              | none => .error .typeError
  | _ => .error .typeError

/-- Python `int(x)` on a JSON value, same modelling as `pyFloat`. -/
def pyInt (j : Json) : Except PyErr Json := pyFloat j

/-- `float(sensor.get(key, default))` shorthand. -/
def pyFloatD (j : Json) (key : String) (d : Int) : Except PyErr Json :=
  pyFloat ((j.getField key).getD (.num d))

/-- `int(fan.get(key, default))` shorthand. -/
def pyIntD (j : Json) (key : String) (d : Int) : Except PyErr Json :=
  pyInt ((j.getField key).getD (.num d))

/-- The result skeleton of `get_system_info` (lines 513-518), also
returned whole on any failure. -/
def sysSkeleton : Json :=
  .obj [("device_info", .obj []),
        ("thermal_sensors", .obj [("sensors", .arr [])]),
        ("fan_speeds", .obj [("fans", .arr [])]),
        ("system_time", .obj [])]

/-- Device-information block built on lines 525-534. -/
def deviceInfoBuild (device : Json) : Except PyErr Json :=
  match device with
  | .obj _ =>
    .ok (.obj [("serial_number", (device.getField "serialNumber").getD (.str "")),
               ("name", (device.getField "name").getD (.str "")),
               ("model", (device.getField "model").getD (.str "")),
               ("product_code", (device.getField "productCode").getD (.str "")),
               ("hardware_revision", (device.getField "hardwareRevision").getD (.str "")),
               ("firmware_version", (device.getField "firmwareVersion").getD (.str "")),
               ("host", (device.getField "host").getD (.str "")),
               ("pepvpn_version", (device.getField "pepvpnVersion").getD (.str ""))])
  | _ => .error .typeError

/-- Thermal-sensor loop (lines 538-546 and 619-627). -/
def thermalBuild : List Json → Except PyErr (List Json)
  | [] => .ok []
  | sensor :: rest =>
    match sensor with
    | .obj _ => do
      let t ← pyFloatD sensor "temperature" 0
      let mn ← pyFloatD sensor "min" (-30)
      let mx ← pyFloatD sensor "max" 110
      let th ← pyFloatD sensor "threshold" 30
      let l ← thermalBuild rest
      .ok (.obj [("name", .str "System"), ("temperature", t), ("unit", .str "C"),
                 ("min", mn), ("max", mx), ("threshold", th)] :: l)
    | _ => .error .typeError

/-- Fan-speed loop (lines 551-559 and 670-678); `enumerate` counts
every element, active or not. -/
def fansBuild (i : Nat) : List Json → Except PyErr (List Json)
  | [] => .ok []
  | fan :: rest =>
    match fan with
    | .obj _ =>
      if pyTruthy ((fan.getField "active").getD (.bool false)) then do
        let v ← pyIntD fan "value" 0
        let tot ← pyIntD fan "total" 17000
        let pct ← pyFloatD fan "percentage" 0
        let l ← fansBuild (i + 1) rest
        .ok (.obj [("name", .str ("Fan " ++ toString i)), ("speed", v), ("unit", .str "RPM"),
                   ("max_speed", tot), ("percentage", pct)] :: l)
      else fansBuild (i + 1) rest
    | _ => .error .typeError

/-- System-time block built on lines 563-569. -/
def sysTimeBuild (st : Json) : Except PyErr Json :=
  match st with
  | .obj _ =>
    .ok (.obj [("time_string", (st.getField "string").getD (.str "")),
               ("timestamp", (st.getField "timestamp").getD (.num 0)),
               ("timezone", (st.getField "timezone").getD (.str ""))])
  | _ => .error .typeError

/-- Processing of the combined system-information envelope (lines
520-574). -/
def systemInfoNormalize (response : Json) : Except PyErr Json :=
  if jsonFieldIsStr response "stat" "ok" && response.hasField "response" then
    match response.getField "response" with
    | some inner =>
      match inner with
      | .obj _ => do
        let device := (inner.getField "device").getD (.obj [])
        let devInfo ← if pyTruthy device then deviceInfoBuild device else .ok (.obj [])
        let sensors ← match (inner.getField "thermalSensor").getD (.arr []) with
                      | .arr l => thermalBuild l
                      | _ => .error .typeError
        let fans ← match (inner.getField "fanSpeed").getD (.arr []) with
                   | .arr l => fansBuild 1 l
                   | _ => .error .typeError
        let st := (inner.getField "systemTime").getD (.obj [])
        let stJ ← if pyTruthy st then sysTimeBuild st else .ok (.obj [])
        .ok (.obj [("device_info", devInfo),
                   ("thermal_sensors", .obj [("sensors", .arr sensors)]),
                   ("fan_speeds", .obj [("fans", .arr fans)]),
                   ("system_time", stJ)])
      | _ => .error .typeError
    | none => .ok sysSkeleton
  else .ok sysSkeleton

/-- `get_system_info` (lines 462-583): any exception yields the
skeleton; the accessor itself never raises. -/
def getSystemInfo (s : S) : Except PyErr Json × S :=
  let (r, s1) := makeApiRequest s
  match (match r with
         | .ok response => systemInfoNormalize response
         | .error e => .error e) with
  | .ok j => (.ok j, s1)
  | .error _ => (.ok sysSkeleton, s1)

/-- Canonical empty containers of the dedicated accessors. -/
def sensorsEmpty : Json := .obj [("sensors", .arr [])]

def fansEmpty : Json := .obj [("fans", .arr [])]

def deviceInfoEmpty : Json := .obj [("device_info", .obj [])]

/-- Fallback normalization of `get_thermal_sensors` (lines 613-635). -/
def thermalFallback (r : Except PyErr Json) : Json :=
  match r with
  | .error _ => sensorsEmpty
  | .ok response =>
    match (if jsonFieldIsStr response "stat" "ok" && response.hasField "response" then
             match response.getField "response" with
             | some inner =>
               match inner with
               | .obj _ =>
                 match (inner.getField "thermalSensor").getD (.arr []) with
                 | .arr l =>
                   match thermalBuild l with
                   | .ok ss => Except.ok (Json.obj [("sensors", .arr ss)])
                   | .error e => Except.error e
                 | _ => Except.error PyErr.typeError
               | _ => Except.error PyErr.typeError
             | none => Except.ok sensorsEmpty
           else Except.ok sensorsEmpty) with
    | .ok j => j
    | .error _ => sensorsEmpty

/-- `get_thermal_sensors` (lines 585-635): use the combined call when
it produced a non-empty sensor list, otherwise fall back to the
dedicated endpoint.  Never raises. -/
def getThermalSensors (s : S) : Except PyErr Json × S :=
  let (r, s1) := getSystemInfo s
  let combined : Option Json :=
    match r with
    | .error _ => none
    | .ok si =>
      let ts := (si.getField "thermal_sensors").getD (.obj [])
      if pyTruthy si && pyTruthy ((ts.getField "sensors").getD .null) then
        si.getField "thermal_sensors"
      else none
  match combined with
  | some ts => (.ok ts, s1)
  | none =>
    let (r2, s2) := makeApiRequest s1
    (.ok (thermalFallback r2), s2)

/-- Fallback normalization of `get_fan_speeds` (lines 664-686). -/
def fansFallback (r : Except PyErr Json) : Json :=
  match r with
  | .error _ => fansEmpty
  | .ok response =>
    match (if jsonFieldIsStr response "stat" "ok" && response.hasField "response" then
             match response.getField "response" with
             | some inner =>
               match inner with
               | .obj _ =>
                 match (inner.getField "fanSpeed").getD (.arr []) with
                 | .arr l =>
                   match fansBuild 1 l with
                   | .ok fs => Except.ok (Json.obj [("fans", .arr fs)])
                   | .error e => Except.error e
                 | _ => Except.error PyErr.typeError
               | _ => Except.error PyErr.typeError
             | none => Except.ok fansEmpty
           else Except.ok fansEmpty) with
    | .ok j => j
    | .error _ => fansEmpty

/-- `get_fan_speeds` (lines 637-686).  Never raises. -/
def getFanSpeeds (s : S) : Except PyErr Json × S :=
  let (r, s1) := getSystemInfo s
  let combined : Option Json :=
    match r with
    | .error _ => none
    | .ok si =>
      let fs := (si.getField "fan_speeds").getD (.obj [])
      if pyTruthy si && pyTruthy ((fs.getField "fans").getD .null) then
        si.getField "fan_speeds"
      else none
  match combined with
  | some fs => (.ok fs, s1)
  | none =>
    let (r2, s2) := makeApiRequest s1
    (.ok (fansFallback r2), s2)

/-- Fallback normalization of `get_device_info` (lines 716-741). -/
def deviceInfoFallback (r : Except PyErr Json) : Json :=
  match r with
  | .error _ => deviceInfoEmpty
  | .ok response =>
    match (if jsonFieldIsStr response "stat" "ok" && response.hasField "response" then
             match response.getField "response" with
             | some inner =>
               match inner with
               | .obj _ =>
                 let device := (inner.getField "device").getD (.obj [])
                 if pyTruthy device then
                   match deviceInfoBuild device with
                   | .ok info => Except.ok (Json.obj [("device_info", info)])
                   | .error e => Except.error e
                 else Except.ok deviceInfoEmpty
               | _ => Except.error PyErr.typeError
             | none => Except.ok deviceInfoEmpty
           else Except.ok deviceInfoEmpty) with
    | .ok j => j
    | .error _ => deviceInfoEmpty

/-- `get_device_info` (lines 688-741).  Never raises. -/
def getDeviceInfo (s : S) : Except PyErr Json × S :=
  let (r, s1) := getSystemInfo s
  let combined : Option Json :=
    match r with
    | .error _ => none
    | .ok si =>
      if pyTruthy si && pyTruthy ((si.getField "device_info").getD .null) then
        match si.getField "device_info" with
        | some di => some (.obj [("device_info", di)])
        | none => none
      else none
  match combined with
  | some j => (.ok j, s1)
  | none =>
    let (r2, s2) := makeApiRequest s1
    (.ok (deviceInfoFallback r2), s2)

/-! ### get_location (lines 867-925) -/

/-- Canonical empty location container. -/
def gpsEmpty : Json :=
  .obj [("gps", .bool false), ("type", .str "Unknown"), ("location", .obj [])]

/-- Python identity test `x is False`. -/
def isPyFalse : Option Json → Bool
  | some (.bool b) => !b
  | _ => false

/-- Multiplication by the 5-meter base precision (line 911); applied
to the result of `pyFloat`, which is always a number. -/
def timesFive : Json → Json
  | .num n => .num (n * 5)
  | j => j

/-- Envelope dispatch and in-place mutation of `get_location` (lines
894-921). -/
def locationNormalize (response : Json) : Except PyErr Json :=
  if jsonFieldIsStr response "stat" "ok" && response.hasField "response" then
    match response.getField "response" with
    | some locationData =>
      match locationData with
      | .obj ldf =>
        if isPyFalse (lookupField ldf "gps") then .ok gpsEmpty
        else
          if (lookupField ldf "location").isSome
              && pyTruthy ((lookupField ldf "gps").getD (.bool false)) then
            match lookupField ldf "location" with
            | some (.obj loc) => do
              let loc1 ←
                match lookupField loc "hdop" with
                | some hv =>
                  if (match hv with | .null => true | _ => false) then Except.ok loc
                  else do
                    let a ← pyFloat hv
                    Except.ok (setFields loc "accuracy" (timesFive a))
                | none => Except.ok loc
              let loc2 := if (lookupField loc1 "heading").isSome then loc1
                          else setFields loc1 "heading" .null
              .ok (.obj (setFields ldf "location" (.obj loc2)))
            | _ => .error .typeError
          else .ok locationData
      | _ => .error .typeError
    | none => .ok gpsEmpty
  else .ok gpsEmpty

/-- `get_location` (lines 867-925).  Never raises. -/
def getLocation (s : S) : Except PyErr Json × S :=
  let (r, s1) := makeApiRequest s
  match (match r with
         | .ok response => locationNormalize response
         | .error e => .error e) with
  | .ok j => (.ok j, s1)
  | .error _ => (.ok gpsEmpty, s1)

/-! ### Sample environments shared by witnesses and counterexamples -/

/-- A plain HTTP 200 response carrying a parsed JSON body. -/
def sampleResp (d : Json) : ReqOutcome := .response ⟨200, .parsed d, none, none⟩

/-- A client that is already authenticated, holding the cookie `tok`
and a caller-supplied session, about to observe the given script. -/
def connectedS (resps : List ReqOutcome) (envs : List ConnectEnv) : S :=
  ⟨⟨true, some "tok", true, false⟩, ⟨envs, resps⟩, 0, 0⟩

/-- A handshake environment on which `connect` succeeds: the login
POST returns 200 with `stat` ok and a `bauth` cookie, and the
verification GET returns 200 with a parsed body. -/
def goodConnectEnv : ConnectEnv :=
  ⟨.response ⟨200, .parsed (.obj [("stat", .str "ok")]), some "ck", none⟩,
   .response ⟨200, .parsed (.obj [("stat", .str "ok")]), none, none⟩⟩

/-- A body-level authentication-failure envelope. -/
def fail401Body : Json := .obj [("stat", .str "fail"), ("code", .num 401)]

/-- A generic failure envelope whose code is not the authorization
code. -/
def failBody : Json := .obj [("stat", .str "fail"), ("code", .num 404), ("message", .str "no")]

/-- State after one scripted data response has been consumed with the
remaining script `rest`. -/
def consume1 (s : S) (rest : List ReqOutcome) : S :=
  { s with world := { connects := s.world.connects, responses := rest },
           dataReqs := s.dataReqs + 1 }

/-- Field `k` of the first entry of the `stats` list. -/
def firstStatField (j : Json) (k : String) : Option Json :=
  match j.getField "stats" with
  | some (.arr (e :: _)) => e.getField k
  | _ => none

/-- All `wan_id` values of a `stats` container. -/
def statsWanIds (j : Json) : List Json :=
  match j.getField "stats" with
  | some (.arr l) => l.filterMap (fun e => e.getField "wan_id")
  | _ => []

/-- All `id` values of a `connection` container. -/
def connIds (j : Json) : List Json :=
  match j.getField "connection" with
  | some (.arr l) => l.filterMap (fun e => e.getField "id")
  | _ => []

/-- JSON values acceptable as Python dict keys in this model. -/
def IsPrimKey : Json → Prop
  | .arr _ => False
  | .obj _ => False
  | _ => True

/-- A WAN-status response in the flat shape whose single connection
entry carries only an id. -/
def flatNoName : Json := .obj [("connection", .arr [.obj [("id", .str "1")]])]

/-- A WAN-status response in the flat shape with no connections. -/
def wanFlatEmpty : Json := .obj [("connection", .arr [])]

/-- A traffic response whose per-interface counters are expressed as
MB values under `download` and `upload` keys. -/
def trafficMB : Json :=
  .obj [("stat", .str "ok"),
        ("response", .obj [("1", .obj [("download", .num 1), ("upload", .num 2)])])]

/-- A nested WAN-status success envelope declaring interfaces 1 and 2. -/
def wanNested12 : Json :=
  .obj [("stat", .str "ok"),
        ("response", .obj [("1", .obj [("name", .str "A")]), ("2", .obj [("name", .str "B")])])]

/-- A successful traffic response that reports interface 1 only. -/
def trafficOnly1 : Json :=
  .obj [("stat", .str "ok"),
        ("response", .obj [("1", .obj [("rx", .num 5), ("tx", .num 6)])])]

/-! ### Small reduction lemmas -/

theorem jsonFieldIsStr_of_getField {d : Json} {k a : String} (h : d.getField k = some (.str a))
    (b : String) : jsonFieldIsStr d k b = (a == b) := by
  simp [jsonFieldIsStr, h]

theorem lookupField_setFields_same (fs : List (String × Json)) (k : String) (v : Json) :
    lookupField (setFields fs k v) k = some v := by
  induction fs with
  | nil => simp [setFields, lookupField]
  | cons kv rest ih =>
    by_cases h : kv.1 = k
    · simp [setFields, lookupField, h]
    · simp [setFields, lookupField, h, ih]

theorem lookupField_setFields_other (fs : List (String × Json)) {k k0 : String} (v : Json)
    (h : k0 ≠ k) : lookupField (setFields fs k0 v) k = lookupField fs k := by
  induction fs with
  | nil => simp [setFields, lookupField, h]
  | cons kv rest ih =>
    by_cases hk : kv.1 = k0
    · simp [setFields, lookupField, hk, h]
    · simp only [setFields, hk, if_false, lookupField]
      by_cases hk2 : kv.1 = k
      · simp [hk2]
      · simp [hk2, ih]

/-! ### Claim theorems: session machine -/

/-- C10: when `_connected` is already true, `connect` returns true at
once, issues no login or verification request (the scripted
environment is untouched), and changes no field of the client. -/
theorem c10_connect_noop (s : S) (h : s.cs.connected = true) : connect s = (.ok true, s) := by
  simp [connect, h]

theorem c10_connect_noop_witness :
    (connectedS [] []).cs.connected = true ∧ connect (connectedS [] []) = (.ok true, connectedS [] []) :=
  ⟨rfl, c10_connect_noop (connectedS [] []) rfl⟩

/-- C5: `connect` reports ordinary credential failures by returning
false without raising — both for an HTTP 401 on the login POST and for
a login body whose `stat` is not `ok` — while a TLS
certificate-validation failure on the login request raises the
distinct `PeplinkSSLError`. -/
theorem c5_credential_failure_vs_ssl :
    (∀ s env cs r, s.cs.connected = false → s.world.connects = env :: cs →
        env.login = .response r → r.status = 401 → (connect s).1 = .ok false)
  ∧ (∀ s env cs r d, s.cs.connected = false → s.world.connects = env :: cs →
        env.login = .response r → r.status = 200 → r.body = .parsed d →
        jsonFieldIsStr d "stat" "ok" = false → (connect s).1 = .ok false)
  ∧ (∀ s env cs, s.cs.connected = false → s.world.connects = env :: cs →
        env.login = .certError → (connect s).1 = .error .sslError) := by
  refine ⟨?_, ?_, ?_⟩
  · intro s env cs r h1 h2 h3 h4
    obtain ⟨⟨c, a, sp, ow⟩, ⟨cons, resps⟩, dr, fr⟩ := s
    obtain ⟨lg, vf⟩ := env
    obtain ⟨st, b, cb, sc⟩ := r
    simp only at h1 h2 h3 h4
    subst h1 h2 h3 h4
    cases sp <;> simp [connect, getSession, popConnect]
  · intro s env cs r d h1 h2 h3 h4 h5 h6
    obtain ⟨⟨c, a, sp, ow⟩, ⟨cons, resps⟩, dr, fr⟩ := s
    obtain ⟨lg, vf⟩ := env
    obtain ⟨st, b, cb, sc⟩ := r
    simp only at h1 h2 h3 h4 h5
    subst h1 h2 h3 h4 h5
    cases sp <;> simp [connect, getSession, popConnect, h6]
  · intro s env cs h1 h2 h3
    obtain ⟨⟨c, a, sp, ow⟩, ⟨cons, resps⟩, dr, fr⟩ := s
    obtain ⟨lg, vf⟩ := env
    simp only at h1 h2 h3
    subst h1 h2 h3
    cases sp <;> simp [connect, getSession, popConnect]

theorem c5_credential_failure_vs_ssl_witness :
    (connect ⟨⟨false, none, true, false⟩,
        ⟨[⟨.response ⟨401, .parsed .null, none, none⟩, .response ⟨200, .parsed .null, none, none⟩⟩], []⟩,
        0, 0⟩).1 = .ok false
  ∧ (connect ⟨⟨false, none, true, false⟩,
        ⟨[⟨.response ⟨200, .parsed failBody, none, none⟩, .response ⟨200, .parsed .null, none, none⟩⟩], []⟩,
        0, 0⟩).1 = .ok false
  ∧ (connect ⟨⟨false, none, true, false⟩, ⟨[⟨.certError, .certError⟩], []⟩, 0, 0⟩).1 = .error .sslError :=
  ⟨c5_credential_failure_vs_ssl.1 _ _ [] _ rfl rfl rfl rfl,
   c5_credential_failure_vs_ssl.2.1 _ _ [] _ failBody rfl rfl rfl rfl rfl rfl,
   c5_credential_failure_vs_ssl.2.2 _ _ [] rfl rfl rfl⟩

/-- C6: a login body with `stat` equal to `fail` makes `connect`
return false; the connected flag stays false and the cached auth
cookie is exactly what it was before the call (the failing path
returns before any cookie extraction). -/
theorem c6_login_fail_disconnected (s : S) (env : ConnectEnv) (cs : List ConnectEnv)
    (r : HttpResponse) (d : Json)
    (h1 : s.cs.connected = false) (h2 : s.world.connects = env :: cs)
    (h3 : env.login = .response r) (h4 : r.status = 200) (h5 : r.body = .parsed d)
    (h6 : d.getField "stat" = some (.str "fail")) :
    (connect s).1 = .ok false ∧ (connect s).2.cs.connected = false
      ∧ (connect s).2.cs.authCookie = s.cs.authCookie := by
  have h7 : jsonFieldIsStr d "stat" "ok" = false := by
    simp [jsonFieldIsStr_of_getField h6]
  obtain ⟨⟨c, a, sp, ow⟩, ⟨cons, resps⟩, dr, fr⟩ := s
  obtain ⟨lg, vf⟩ := env
  obtain ⟨st, b, cb, sc⟩ := r
  simp only at h1 h2 h3 h4 h5
  subst h1 h2 h3 h4 h5
  cases sp <;> simp [connect, getSession, popConnect, h7]

theorem c6_login_fail_disconnected_witness :
    (connect ⟨⟨false, none, true, false⟩,
        ⟨[⟨.response ⟨200, .parsed (.obj [("stat", .str "fail")]), some "zz", none⟩,
           .response ⟨200, .parsed .null, none, none⟩⟩], []⟩, 0, 0⟩).1 = .ok false
  ∧ (connect ⟨⟨false, none, true, false⟩,
        ⟨[⟨.response ⟨200, .parsed (.obj [("stat", .str "fail")]), some "zz", none⟩,
           .response ⟨200, .parsed .null, none, none⟩⟩], []⟩, 0, 0⟩).2.cs.connected = false
  ∧ (connect ⟨⟨false, none, true, false⟩,
        ⟨[⟨.response ⟨200, .parsed (.obj [("stat", .str "fail")]), some "zz", none⟩,
           .response ⟨200, .parsed .null, none, none⟩⟩], []⟩, 0, 0⟩).2.cs.authCookie = none :=
  c6_login_fail_disconnected _ _ [] _ (.obj [("stat", .str "fail")]) rfl rfl rfl rfl rfl rfl

/-- C9 counterexample: for a connected client whose HTTP session was
supplied by the caller, `close` is a no-op, so the state after the
call is still connected — contradicting the claim that after `close`
returns the session state is always Disconnected. -/
theorem c9_close_counterexample :
    close (connectedS [] []) = connectedS [] []
      ∧ (close (connectedS [] [])).cs.connected = true :=
  ⟨rfl, rfl⟩

/-- C9 amended: `close` never raises and is idempotent in every state;
calling it with the connected flag still false (in particular before
any `connect`) leaves the state Disconnected, and when the client owns
its session `close` releases it and resets the connected flag — but
with a caller-supplied session it is a no-op and the connected flag is
unchanged rather than forced to Disconnected. -/
theorem c9_close_idempotent_scoped :
    (∀ s, close (close s) = close s)
  ∧ (∀ s, s.cs.ownSession = false → close s = s)
  ∧ (∀ s, s.cs.connected = false → (close s).cs.connected = false)
  ∧ (∀ s, s.cs.ownSession = true → s.cs.sessionPresent = true →
      (close s).cs.connected = false ∧ (close s).cs.sessionPresent = false
        ∧ (close s).cs.ownSession = false) := by
  refine ⟨?_, ?_, ?_, ?_⟩
  · intro s
    obtain ⟨⟨c, a, sp, ow⟩, w, dr, fr⟩ := s
    cases ow <;> cases sp <;> simp [close]
  · intro s h
    obtain ⟨⟨c, a, sp, ow⟩, w, dr, fr⟩ := s
    simp only at h
    subst h
    simp [close]
  · intro s h
    obtain ⟨⟨c, a, sp, ow⟩, w, dr, fr⟩ := s
    simp only at h
    subst h
    cases ow <;> cases sp <;> simp [close]
  · intro s h1 h2
    obtain ⟨⟨c, a, sp, ow⟩, w, dr, fr⟩ := s
    simp only at h1 h2
    subst h1 h2
    simp [close]

theorem c9_close_idempotent_scoped_witness :
    close (close (connectedS [] [])) = close (connectedS [] [])
  ∧ close (connectedS [] []) = connectedS [] []
  ∧ (close ⟨⟨false, none, false, false⟩, ⟨[], []⟩, 0, 0⟩).cs.connected = false
  ∧ ((close ⟨⟨true, some "t", true, true⟩, ⟨[], []⟩, 0, 0⟩).cs.connected = false
      ∧ (close ⟨⟨true, some "t", true, true⟩, ⟨[], []⟩, 0, 0⟩).cs.sessionPresent = false
      ∧ (close ⟨⟨true, some "t", true, true⟩, ⟨[], []⟩, 0, 0⟩).cs.ownSession = false) :=
  ⟨c9_close_idempotent_scoped.1 _,
   c9_close_idempotent_scoped.2.1 _ rfl,
   c9_close_idempotent_scoped.2.2.1 _ rfl,
   c9_close_idempotent_scoped.2.2.2 _ rfl rfl⟩

/-- C8 counterexample: forcing a reconnect from a state holding the
cached cookie `old` against a login that hands out no new cookie still
succeeds, and the state afterwards still carries the cookie `old` —
so `ensure_connected(force)` does not clear the cached auth
credential (had it been cleared, this handshake would have failed with
no auth cookie received). -/
theorem c8_force_keeps_cookie_counterexample :
    (ensureConnected true ⟨⟨true, some "old", true, false⟩,
        ⟨[⟨.response ⟨200, .parsed (.obj [("stat", .str "ok")]), none, none⟩,
           .response ⟨200, .parsed (.obj [("stat", .str "ok")]), none, none⟩⟩], []⟩, 0, 0⟩).1 = .ok true
  ∧ (ensureConnected true ⟨⟨true, some "old", true, false⟩,
        ⟨[⟨.response ⟨200, .parsed (.obj [("stat", .str "ok")]), none, none⟩,
           .response ⟨200, .parsed (.obj [("stat", .str "ok")]), none, none⟩⟩], []⟩, 0, 0⟩).2.cs.authCookie
      = some "old" :=
  ⟨rfl, rfl⟩

/-- C8 amended: when already authenticated and not forced,
`ensure_connected` is idempotent and returns true without touching any
state; when forced (or not authenticated) it resets only the connected
flag — the cached auth cookie is retained — and returns the result of
`connect` on that state. -/
theorem c8_ensure_connected_flag_only :
    (∀ s, s.cs.connected = true → ensureConnected false s = (.ok true, s))
  ∧ (∀ s, ensureConnected true s
        = connect (setConnected false { s with forced := s.forced + 1 }))
  ∧ (∀ s b, (setConnected b s).cs.authCookie = s.cs.authCookie
        ∧ (setConnected b s).cs.sessionPresent = s.cs.sessionPresent
        ∧ (setConnected b s).cs.ownSession = s.cs.ownSession) := by
  refine ⟨?_, ?_, ?_⟩
  · intro s h
    simp [ensureConnected, h]
  · intro s
    obtain ⟨⟨c, a, sp, ow⟩, w, dr, fr⟩ := s
    cases c <;> simp [ensureConnected, setConnected]
  · intro s b
    exact ⟨rfl, rfl, rfl⟩

/-- A response counting as a 401 for the retry logic of
`_api_request`: either the HTTP status is 401, or the response passes
`raise_for_status` and its parsed body is a `stat` fail with code
401. -/
def Auth401 (r : HttpResponse) : Prop :=
  r.status = 401 ∨ (r.status < 400 ∧ ∃ d, r.body = .parsed d ∧ fail401 d = true)

/-- C1: on a first 401 (HTTP or body-level) `_api_request` performs
exactly one forced re-authentication and retries the identical request
exactly once; when the retry again yields a 401 of either kind the
call ends in an error and the third scripted response is never
consumed. -/
theorem c1_single_forced_retry (s : S) (r1 r2 : HttpResponse) (rest : List ReqOutcome)
    (lr vr : HttpResponse) (dL : Json) (v : String) (cs' : List ConnectEnv)
    (hc : s.cs.connected = true) (hs : s.cs.sessionPresent = true)
    (hr : s.world.responses = .response r1 :: .response r2 :: rest)
    (hcon : s.world.connects = ⟨.response lr, .response vr⟩ :: cs')
    (hL1 : lr.status = 200) (hL2 : lr.body = .parsed dL)
    (hL3 : jsonFieldIsStr dL "stat" "ok" = true)
    (hL4 : lr.cookieBauth = some v) (hv : v ≠ "")
    (hV1 : vr.status = 200) (hV2 : ∃ dv, vr.body = .parsed dv)
    (h1 : Auth401 r1) (h2 : Auth401 r2) :
    ∃ msg, (apiRequest s).1 = .error (.plainExn msg)
      ∧ (apiRequest s).2.dataReqs = s.dataReqs + 2
      ∧ (apiRequest s).2.forced = s.forced + 1
      ∧ (apiRequest s).2.world.responses = rest := by
  have hv2 : (v != "") = true := by simp [hv]
  obtain ⟨⟨c, a, sp, ow⟩, ⟨cons, resps⟩, dr, fr⟩ := s
  obtain ⟨stL, bL, cbL, scL⟩ := lr
  obtain ⟨stV, bV, cbV, scV⟩ := vr
  obtain ⟨dv, hdv⟩ := hV2
  obtain ⟨st1, b1, cb1, sc1⟩ := r1
  obtain ⟨st2, b2, cb2, sc2⟩ := r2
  simp only at hc hs hr hcon hL1 hL2 hL4 hV1 hdv
  subst hc hs hr hcon hL1 hL2 hL4 hV1 hdv
  rcases h1 with h1 | ⟨hlt1, d1, hb1, hf1⟩ <;>
    rcases h2 with h2 | ⟨hlt2, d2, hb2, hf2⟩
  · simp only at h1 h2
    subst h1 h2
    simp [apiRequest, apiRequestBody, getSession, popResponse, ensureConnected,
          setConnected, connect, popConnect, setCookie, cookieTruthy, hL3, hv2]
  · simp only at h1 hb2 hlt2
    subst h1 hb2
    have hne2 : ¬ st2 = 401 := by omega
    have hge2 : ¬ 400 ≤ st2 := by omega
    simp [apiRequest, apiRequestBody, getSession, popResponse, ensureConnected,
          setConnected, connect, popConnect, setCookie, cookieTruthy, hL3, hv2,
          hne2, hge2, hf2]
  · simp only at h2 hb1 hlt1
    subst h2 hb1
    have hne1 : ¬ st1 = 401 := by omega
    have hge1 : ¬ 400 ≤ st1 := by omega
    simp [apiRequest, apiRequestBody, getSession, popResponse, ensureConnected,
          setConnected, connect, popConnect, setCookie, cookieTruthy, hL3, hv2,
          hne1, hge1, hf1]
  · simp only at hb1 hb2 hlt1 hlt2
    subst hb1 hb2
    have hne1 : ¬ st1 = 401 := by omega
    have hge1 : ¬ 400 ≤ st1 := by omega
    have hne2 : ¬ st2 = 401 := by omega
    have hge2 : ¬ 400 ≤ st2 := by omega
    simp [apiRequest, apiRequestBody, getSession, popResponse, ensureConnected,
          setConnected, connect, popConnect, setCookie, cookieTruthy, hL3, hv2,
          hne1, hge1, hf1, hne2, hge2, hf2]

theorem c1_single_forced_retry_witness :
    Auth401 ⟨401, .parsed .null, none, none⟩
  ∧ (∃ msg, (apiRequest (connectedS
        [.response ⟨401, .parsed .null, none, none⟩,
         .response ⟨401, .parsed .null, none, none⟩,
         sampleResp failBody] [goodConnectEnv])).1 = .error (.plainExn msg)
      ∧ (apiRequest (connectedS
          [.response ⟨401, .parsed .null, none, none⟩,
           .response ⟨401, .parsed .null, none, none⟩,
           sampleResp failBody] [goodConnectEnv])).2.dataReqs
          = (connectedS
          [.response ⟨401, .parsed .null, none, none⟩,
           .response ⟨401, .parsed .null, none, none⟩,
           sampleResp failBody] [goodConnectEnv]).dataReqs + 2
      ∧ (apiRequest (connectedS
          [.response ⟨401, .parsed .null, none, none⟩,
           .response ⟨401, .parsed .null, none, none⟩,
           sampleResp failBody] [goodConnectEnv])).2.forced
          = (connectedS
          [.response ⟨401, .parsed .null, none, none⟩,
           .response ⟨401, .parsed .null, none, none⟩,
           sampleResp failBody] [goodConnectEnv]).forced + 1
      ∧ (apiRequest (connectedS
          [.response ⟨401, .parsed .null, none, none⟩,
           .response ⟨401, .parsed .null, none, none⟩,
           sampleResp failBody] [goodConnectEnv])).2.world.responses
          = [sampleResp failBody]) :=
  ⟨Or.inl rfl,
   c1_single_forced_retry _ _ _ _ _ _ _ "ck" _ rfl rfl rfl rfl rfl rfl rfl rfl
     (by simp) rfl ⟨.obj [("stat", .str "ok")], rfl⟩ (Or.inl rfl) (Or.inl rfl)⟩

theorem c8_ensure_connected_flag_only_witness :
    ensureConnected false (connectedS [] []) = (.ok true, connectedS [] [])
  ∧ ensureConnected true (connectedS [] [])
      = connect (setConnected false { connectedS [] [] with forced := 1 })
  ∧ (setConnected false (connectedS [] [])).cs.authCookie = some "tok" :=
  ⟨c8_ensure_connected_flag_only.1 _ rfl,
   c8_ensure_connected_flag_only.2.1 _,
   (c8_ensure_connected_flag_only.2.2 (connectedS [] []) false).1⟩

/-! ### Request-layer reduction lemmas -/

theorem makeApiRequest_plain (s : S) (d : Json) (cb sc : Option String) (rest : List ReqOutcome)
    (hc : s.cs.connected = true) (hs : s.cs.sessionPresent = true)
    (hr : s.world.responses = .response ⟨200, .parsed d, cb, sc⟩ :: rest)
    (hf : fail401 d = false) :
    makeApiRequest s = (.ok d, consume1 s rest) := by
  obtain ⟨⟨c, a, sp, ow⟩, ⟨cons, resps⟩, dr, fr⟩ := s
  simp only at hc hs hr
  subst hc hs hr
  simp [makeApiRequest, ensureConnected, apiRequest, apiRequestBody, getSession,
        popResponse, consume1, hf]

theorem makeApiRequest_decode (s : S) (cb sc : Option String) (rest : List ReqOutcome)
    (hc : s.cs.connected = true) (hs : s.cs.sessionPresent = true)
    (hr : s.world.responses = .response ⟨200, .decodeError, cb, sc⟩ :: rest) :
    makeApiRequest s = (.error .jsonDecodeError, consume1 s rest) := by
  obtain ⟨⟨c, a, sp, ow⟩, ⟨cons, resps⟩, dr, fr⟩ := s
  simp only at hc hs hr
  subst hc hs hr
  simp [makeApiRequest, ensureConnected, apiRequest, apiRequestBody, getSession,
        popResponse, consume1]

theorem consume1_cs (s : S) (rest : List ReqOutcome) : (consume1 s rest).cs = s.cs := rfl

theorem consume1_responses (s : S) (rest : List ReqOutcome) :
    (consume1 s rest).world.responses = rest := rfl

/-! ### Normalization lemmas for the WAN shapes -/

theorem defaultedWan_id (k : String) (g : List (String × Json)) :
    lookupField (defaultedWanFields k g) "id" = some (.str k) := by
  unfold defaultedWanFields
  rw [lookupField_setFields_other _ _ (by decide),
      lookupField_setFields_other _ _ (by decide),
      lookupField_setFields_same]

theorem defaultedWan_name (k : String) (g : List (String × Json)) :
    lookupField (defaultedWanFields k g) "name"
      = some ((lookupField g "name").getD (.str ("WAN " ++ k))) := by
  unfold defaultedWanFields
  rw [lookupField_setFields_other _ _ (by decide), lookupField_setFields_same,
      lookupField_setFields_other _ _ (by decide)]

theorem defaultedWan_status (k : String) (g : List (String × Json)) :
    lookupField (defaultedWanFields k g) "status"
      = some ((lookupField g "status").getD (.str "unknown")) := by
  unfold defaultedWanFields
  rw [lookupField_setFields_same, lookupField_setFields_other _ _ (by decide),
      lookupField_setFields_other _ _ (by decide)]

/-- Characterization of the numeric-key loop of `get_wan_status` when
every digit-keyed value is an object: it succeeds, every produced
element is a mutated copy of a digit-keyed source entry, and every
digit-keyed source entry produces its element. -/
theorem processWanItems_elems (fs : List (String × Json))
    (h : ∀ p ∈ fs, pyIsDigit p.1 = true → ∃ g, p.2 = Json.obj g) :
    ∃ L, processWanItems fs = .ok L
      ∧ (∀ j ∈ L, ∃ k g, pyIsDigit k = true ∧ (k, Json.obj g) ∈ fs
            ∧ j = .obj (defaultedWanFields k g))
      ∧ (∀ p ∈ fs, pyIsDigit p.1 = true → ∀ g, p.2 = Json.obj g →
            Json.obj (defaultedWanFields p.1 g) ∈ L) := by
  induction fs with
  | nil => exact ⟨[], rfl, by simp, by simp⟩
  | cons p rest ih =>
    obtain ⟨k, v⟩ := p
    obtain ⟨L, hL, hback, hfwd⟩ := ih (fun q hq hdig => h q (List.mem_cons_of_mem _ hq) hdig)
    by_cases hd : pyIsDigit k = true
    · obtain ⟨g, hg⟩ := h (k, v) (List.mem_cons_self _ _) hd
      simp only at hg
      subst hg
      refine ⟨.obj (defaultedWanFields k g) :: L, by simp [processWanItems, hd, hL], ?_, ?_⟩
      · intro j hj
        rcases List.mem_cons.mp hj with hj | hj
        · exact ⟨k, g, hd, List.mem_cons_self _ _, hj⟩
        · obtain ⟨k2, g2, h1, h2, h3⟩ := hback j hj
          exact ⟨k2, g2, h1, List.mem_cons_of_mem _ h2, h3⟩
      · intro q hq hdig g2 hg2
        rcases List.mem_cons.mp hq with hq | hq
        · subst hq
          simp only at hg2
          injection hg2 with hgg
          subst hgg
          exact List.mem_cons_self _ _
        · exact List.mem_cons_of_mem _ (hfwd q hq hdig g2 hg2)
    · have hd2 : pyIsDigit k = false := by
        cases hkd : pyIsDigit k
        · rfl
        · exact absurd hkd hd
      refine ⟨L, by simp [processWanItems, hd2, hL], ?_, ?_⟩
      · intro j hj
        obtain ⟨k2, g2, h1, h2, h3⟩ := hback j hj
        exact ⟨k2, g2, h1, List.mem_cons_of_mem _ h2, h3⟩
      · intro q hq hdig g2 hg2
        rcases List.mem_cons.mp hq with hq | hq
        · subst hq
          simp only at hdig
          rw [hdig] at hd2
          cases hd2
        · exact hfwd q hq hdig g2 hg2

/-! ### Lemmas for the interface map of get_traffic_stats -/

theorem primKeyEq_refl (k : Json) (h : IsPrimKey k) : primKeyEq k k = true := by
  cases k with
  | null => rfl
  | str s => simp [primKeyEq]
  | num n => simp [primKeyEq]
  | bool b => cases b <;> rfl
  | arr l => exact h.elim
  | obj l => exact h.elim

theorem assocSet_covers (l : List (Json × Json)) (k v : Json) (h : IsPrimKey k) :
    ∃ q ∈ assocSet l k v, primKeyEq q.1 k = true := by
  induction l with
  | nil => exact ⟨(k, v), by simp [assocSet], primKeyEq_refl k h⟩
  | cons p rest ih =>
    obtain ⟨k0, v0⟩ := p
    by_cases hp : primKeyEq k0 k = true
    · exact ⟨(k0, v), by simp [assocSet, hp], hp⟩
    · have hp2 : primKeyEq k0 k = false := by
        cases hx : primKeyEq k0 k
        · rfl
        · exact absurd hx hp
      obtain ⟨q, hq, hqe⟩ := ih
      exact ⟨q, by simp [assocSet, hp2]; exact Or.inr hq, hqe⟩

theorem assocSet_key_mono (l : List (Json × Json)) (k v : Json) (q : Json × Json) (hq : q ∈ l) :
    ∃ r ∈ assocSet l k v, r.1 = q.1 := by
  induction l with
  | nil => cases hq
  | cons p rest ih =>
    obtain ⟨k0, v0⟩ := p
    by_cases hp : primKeyEq k0 k = true
    · rcases List.mem_cons.mp hq with hq | hq
      · exact ⟨(k0, v), by simp [assocSet, hp], by rw [hq]⟩
      · exact ⟨q, by simp [assocSet, hp]; exact Or.inr hq, rfl⟩
    · have hp2 : primKeyEq k0 k = false := by
        cases hx : primKeyEq k0 k
        · rfl
        · exact absurd hx hp
      rcases List.mem_cons.mp hq with hq | hq
      · exact ⟨(k0, v0), by simp [assocSet, hp2], by rw [hq]⟩
      · obtain ⟨r, hr, hre⟩ := ih hq
        exact ⟨r, by simp [assocSet, hp2]; exact Or.inr hr, hre⟩

theorem collectConns_acc_mono (conns : List Json) : ∀ (acc wi : List (Json × Json)),
    collectConns conns acc = .ok wi → ∀ q ∈ acc, ∃ r ∈ wi, r.1 = q.1 := by
  induction conns with
  | nil =>
    intro acc wi h q hq
    simp only [collectConns] at h
    cases h
    exact ⟨q, hq, rfl⟩
  | cons c rest ih =>
    intro acc wi h q hq
    cases c with
    | obj cf =>
      rcases hid : Json.getField (.obj cf) "id" with _ | k
      · simp only [collectConns, hid] at h
        exact ih acc wi h q hq
      · rcases hnm : Json.getField (.obj cf) "name" with _ | nm
        · simp only [collectConns, hid, hnm] at h
          exact ih acc wi h q hq
        · simp only [collectConns, hid, hnm] at h
          cases k with
          | arr l => cases h
          | obj l => cases h
          | null =>
            obtain ⟨r2, hr2, hre2⟩ := assocSet_key_mono acc .null nm q hq
            obtain ⟨r, hr, hre⟩ := ih _ wi h r2 hr2
            exact ⟨r, hr, hre.trans hre2⟩
          | str a =>
            obtain ⟨r2, hr2, hre2⟩ := assocSet_key_mono acc (.str a) nm q hq
            obtain ⟨r, hr, hre⟩ := ih _ wi h r2 hr2
            exact ⟨r, hr, hre.trans hre2⟩
          | num a =>
            obtain ⟨r2, hr2, hre2⟩ := assocSet_key_mono acc (.num a) nm q hq
            obtain ⟨r, hr, hre⟩ := ih _ wi h r2 hr2
            exact ⟨r, hr, hre.trans hre2⟩
          | bool a =>
            obtain ⟨r2, hr2, hre2⟩ := assocSet_key_mono acc (.bool a) nm q hq
            obtain ⟨r, hr, hre⟩ := ih _ wi h r2 hr2
            exact ⟨r, hr, hre.trans hre2⟩
    | null => cases h
    | str a => cases h
    | num a => cases h
    | bool a => cases h
    | arr a => cases h

theorem collectConns_covers (conns : List Json) : ∀ (acc wi : List (Json × Json)),
    collectConns conns acc = .ok wi →
    ∀ c ∈ conns, ∀ k nm, c.getField "id" = some k → c.getField "name" = some nm →
      IsPrimKey k → ∃ q ∈ wi, primKeyEq q.1 k = true := by
  induction conns with
  | nil =>
    intro acc wi _ c hc
    cases hc
  | cons c0 rest ih =>
    intro acc wi h c hcmem k nm hk hnm hkey
    rcases List.mem_cons.mp hcmem with rfl | hc
    · clear hcmem
      cases c with
      | obj cf =>
        simp only [collectConns, hk, hnm] at h
        have hstep : ∀ (acc2 : List (Json × Json)), collectConns rest acc2 = .ok wi →
            acc2 = assocSet acc k nm → ∃ q ∈ wi, primKeyEq q.1 k = true := by
          intro acc2 h2 hacc
          obtain ⟨q2, hq2, hqe2⟩ := assocSet_covers acc k nm hkey
          rw [← hacc] at hq2
          obtain ⟨r, hr, hre⟩ := collectConns_acc_mono rest acc2 wi h2 q2 hq2
          exact ⟨r, hr, by rw [hre]; exact hqe2⟩
        cases k with
        | arr l => exact hkey.elim
        | obj l => exact hkey.elim
        | null => exact hstep _ h rfl
        | str a => exact hstep _ h rfl
        | num a => exact hstep _ h rfl
        | bool a => exact hstep _ h rfl
      | null => cases hk
      | str a => cases hk
      | num a => cases hk
      | bool a => cases hk
      | arr a => cases hk
    · clear hcmem
      cases c0 with
      | obj cf =>
        rcases hid0 : Json.getField (.obj cf) "id" with _ | k0
        · simp only [collectConns, hid0] at h
          exact ih _ wi h c hc k nm hk hnm hkey
        · rcases hnm0 : Json.getField (.obj cf) "name" with _ | nm0
          · simp only [collectConns, hid0, hnm0] at h
            exact ih _ wi h c hc k nm hk hnm hkey
          · simp only [collectConns, hid0, hnm0] at h
            cases k0 with
            | arr l => cases h
            | obj l => cases h
            | null => exact ih _ wi h c hc k nm hk hnm hkey
            | str a => exact ih _ wi h c hc k nm hk hnm hkey
            | num a => exact ih _ wi h c hc k nm hk hnm hkey
            | bool a => exact ih _ wi h c hc k nm hk hnm hkey
      | null => cases h
      | str a => cases h
      | num a => cases h
      | bool a => cases h
      | arr a => cases h

theorem collectConns_ok (conns : List Json) : ∀ (acc : List (Json × Json)),
    (∀ c ∈ conns, ∃ fields, c = Json.obj fields
        ∧ (∃ a, c.getField "id" = some (.str a)) ∧ (c.getField "name").isSome = true) →
    ∃ wi, collectConns conns acc = .ok wi := by
  induction conns with
  | nil => exact fun acc _ => ⟨acc, rfl⟩
  | cons c rest ih =>
    intro acc h
    obtain ⟨fields, hcf, ⟨a, hk⟩, hnm⟩ := h c (List.mem_cons_self _ _)
    obtain ⟨nm, hnm2⟩ := Option.isSome_iff_exists.mp hnm
    subst hcf
    obtain ⟨wi, hwi⟩ := ih (assocSet acc (.str a) nm)
      (fun q hq => h q (List.mem_cons_of_mem _ hq))
    exact ⟨wi, by simp only [collectConns, hk, hnm2]; exact hwi⟩

/-! ### Claim theorems: traffic counters (C2) -/

/-- C2 counterexample: feeding `get_traffic_stats` a success envelope
whose interface entry is exactly the MB-denominated
`download: 1, upload: 2` object yields `rx_bytes = 0`, not the
1048576 the claim requires (the code reads only `rx`/`tx` keys and
performs no MB-to-bytes multiplication). -/
theorem c2_mb_conversion_counterexample :
    (match (getTrafficStats (connectedS [sampleResp wanFlatEmpty, sampleResp trafficMB] [])).1 with
     | .ok j => firstStatField j "rx_bytes"
     | .error _ => none) = some (.num 0)
  ∧ some (Json.num 0) ≠ some (Json.num 1048576) := by
  refine ⟨by rfl, ?_⟩
  simp

/-- C2 amended: `get_traffic_stats` copies the byte counters verbatim
from the `rx` and `tx` keys (defaulting to 0 when they are absent) and
applies no unit conversion, so the `download: 1, upload: 2` entry
produces a stats entry with `rx_bytes = 0` and `tx_bytes = 0`. -/
theorem c2_counters_copied_verbatim :
    (getTrafficStats (connectedS [sampleResp wanFlatEmpty, sampleResp trafficMB] [])).1
      = .ok (.obj [("stats", .arr
          [.obj [("wan_id", .str "1"), ("name", .str "WAN 1"),
                 ("rx_bytes", .num 0), ("tx_bytes", .num 0),
                 ("rx_rate", .num 0), ("tx_rate", .num 0),
                 ("unit", .str "bytes")]])]) := by rfl

/-! ### Claim theorems: failure envelopes and accessor containers (C3) -/

/-- C3 counterexample: a failure envelope whose code is 401, served
twice in a row (with a successful reconnect in between), makes
`get_wan_status` raise the terminal plain exception from
`_api_request` instead of returning its canonical empty container —
`get_wan_status` catches only client errors and JSON decode errors. -/
theorem c3_fail_envelope_raises_counterexample :
    (getWanStatus (connectedS [sampleResp fail401Body, sampleResp fail401Body] [goodConnectEnv])).1
      = .error (.plainExn "Unauthorized API response after reconnect (code: 401)") := by rfl

/-- C3 amended: for failure envelopes whose code is not the
authorization code 401, and for bodies that fail JSON decoding, every
accessor returns its canonical empty container without raising; a
repeated code-401 failure envelope instead escapes `get_wan_status`
and `get_clients` as an exception (the remaining accessors swallow
every exception). -/
theorem c3_fail_envelopes_empty_containers :
    ∀ (s : S) (d : Json) (cb sc : Option String) (rest : List ReqOutcome),
      s.cs.connected = true → s.cs.sessionPresent = true →
      d.getField "stat" = some (.str "fail") →
      jsonFieldIsNum d "code" 401 = false →
      (s.world.responses = .response ⟨200, .parsed d, cb, sc⟩ :: rest →
          (getWanStatus s).1 = .ok wanEmpty
        ∧ (getClients s).1 = .ok clientEmpty
        ∧ (getLocation s).1 = .ok gpsEmpty)
      ∧ (s.world.responses = .response ⟨200, .parsed d, cb, sc⟩
            :: .response ⟨200, .parsed d, cb, sc⟩ :: rest →
          (getThermalSensors s).1 = .ok sensorsEmpty
        ∧ (getFanSpeeds s).1 = .ok fansEmpty
        ∧ (getDeviceInfo s).1 = .ok deviceInfoEmpty)
      ∧ (s.world.responses = .response ⟨200, .parsed d, cb, sc⟩
            :: .response ⟨200, .parsed d, cb, sc⟩
            :: .response ⟨200, .parsed d, cb, sc⟩ :: rest →
          (getTrafficStats s).1 = .ok statsEmpty)
      ∧ (s.world.responses = .response ⟨200, .decodeError, cb, sc⟩ :: rest →
          (getWanStatus s).1 = .ok wanEmpty ∧ (getClients s).1 = .ok clientEmpty) := by
  intro s d cb sc rest hc hs hstat hcode
  have hfail : jsonFieldIsStr d "stat" "fail" = true := by
    simp [jsonFieldIsStr_of_getField hstat]
  have hok : jsonFieldIsStr d "stat" "ok" = false := by
    simp [jsonFieldIsStr_of_getField hstat]
  have hf : fail401 d = false := by simp [fail401, hcode]
  refine ⟨?_, ?_, ?_, ?_⟩
  · intro hr
    have h1 := makeApiRequest_plain s d cb sc rest hc hs hr hf
    refine ⟨?_, ?_, ?_⟩
    · simp [getWanStatus, h1, wanNormalize, hfail]
    · simp [getClients, h1, clientsNormalize, hfail]
    · simp [getLocation, h1, locationNormalize, hok]
  · intro hr
    have h1 := makeApiRequest_plain s d cb sc (.response ⟨200, .parsed d, cb, sc⟩ :: rest)
      hc hs hr hf
    have h2 := makeApiRequest_plain (consume1 s (.response ⟨200, .parsed d, cb, sc⟩ :: rest))
      d cb sc rest (by simpa [consume1_cs] using hc) (by simpa [consume1_cs] using hs)
      (consume1_responses _ _) hf
    have hsys : getSystemInfo s = (.ok sysSkeleton,
        consume1 s (.response ⟨200, .parsed d, cb, sc⟩ :: rest)) := by
      simp [getSystemInfo, h1, systemInfoNormalize, hok]
    refine ⟨?_, ?_, ?_⟩
    · simp [getThermalSensors, hsys, h2, sysSkeleton, Json.getField, lookupField,
            pyTruthy, thermalFallback, sensorsEmpty, hok]
    · simp [getFanSpeeds, hsys, h2, sysSkeleton, Json.getField, lookupField,
            pyTruthy, fansFallback, fansEmpty, hok]
    · simp [getDeviceInfo, hsys, h2, sysSkeleton, Json.getField, lookupField,
            pyTruthy, deviceInfoFallback, deviceInfoEmpty, hok]
  · intro hr
    have h1 := makeApiRequest_plain s d cb sc
      (.response ⟨200, .parsed d, cb, sc⟩ :: .response ⟨200, .parsed d, cb, sc⟩ :: rest)
      hc hs hr hf
    have h2 := makeApiRequest_plain
      (consume1 s (.response ⟨200, .parsed d, cb, sc⟩ :: .response ⟨200, .parsed d, cb, sc⟩ :: rest))
      d cb sc (.response ⟨200, .parsed d, cb, sc⟩ :: rest)
      (by simpa [consume1_cs] using hc) (by simpa [consume1_cs] using hs)
      (consume1_responses _ _) hf
    have h3 := makeApiRequest_plain
      (consume1 (consume1 s (.response ⟨200, .parsed d, cb, sc⟩
          :: .response ⟨200, .parsed d, cb, sc⟩ :: rest)) (.response ⟨200, .parsed d, cb, sc⟩ :: rest))
      d cb sc rest
      (by simpa [consume1_cs] using hc) (by simpa [consume1_cs] using hs)
      (consume1_responses _ _) hf
    simp [getTrafficStats, getWanStatus, h1, h2, h3, wanNormalize, hfail, wanEmpty,
          collectWanInterfaces, Json.getField, lookupField, collectConns,
          trafficAttempt1, trafficAttempt2, hok, statsEmpty]
  · intro hr
    have h1 := makeApiRequest_decode s cb sc rest hc hs hr
    exact ⟨by simp [getWanStatus, h1], by simp [getClients, h1]⟩

theorem c3_fail_envelopes_empty_containers_witness :
    (getWanStatus (connectedS [sampleResp failBody] [])).1 = .ok wanEmpty
  ∧ (getClients (connectedS [sampleResp failBody] [])).1 = .ok clientEmpty
  ∧ (getLocation (connectedS [sampleResp failBody] [])).1 = .ok gpsEmpty
  ∧ (getThermalSensors (connectedS [sampleResp failBody, sampleResp failBody] [])).1
      = .ok sensorsEmpty
  ∧ (getFanSpeeds (connectedS [sampleResp failBody, sampleResp failBody] [])).1 = .ok fansEmpty
  ∧ (getDeviceInfo (connectedS [sampleResp failBody, sampleResp failBody] [])).1
      = .ok deviceInfoEmpty
  ∧ (getTrafficStats (connectedS
        [sampleResp failBody, sampleResp failBody, sampleResp failBody] [])).1 = .ok statsEmpty
  ∧ (getWanStatus (connectedS [.response ⟨200, .decodeError, none, none⟩] [])).1 = .ok wanEmpty := by
  have base := c3_fail_envelopes_empty_containers
    (connectedS [sampleResp failBody] []) failBody none none [] rfl rfl rfl rfl
  have base2 := c3_fail_envelopes_empty_containers
    (connectedS [sampleResp failBody, sampleResp failBody] []) failBody none none [] rfl rfl rfl rfl
  have base3 := c3_fail_envelopes_empty_containers
    (connectedS [sampleResp failBody, sampleResp failBody, sampleResp failBody] [])
    failBody none none [] rfl rfl rfl rfl
  have base4 := c3_fail_envelopes_empty_containers
    (connectedS [.response ⟨200, .decodeError, none, none⟩] []) failBody none none [] rfl rfl rfl rfl
  exact ⟨(base.1 rfl).1, (base.1 rfl).2.1, (base.1 rfl).2.2,
         (base2.2.1 rfl).1, (base2.2.1 rfl).2.1, (base2.2.1 rfl).2.2,
         base3.2.2.1 rfl, (base4.2.2.2 rfl).1⟩

/-! ### Claim theorems: WAN normalization shapes (C7) -/

/-- C7 counterexample: a well-formed success response in the flat
`connection` shape whose element carries only an id is returned
verbatim by `get_wan_status`: the element has neither a `name` nor a
`status` field, so the claimed defaults are not applied in this
shape. -/
theorem c7_flat_shape_counterexample :
    (getWanStatus (connectedS [sampleResp flatNoName] [])).1
      = .ok (.obj [("connection", .arr [.obj [("id", .str "1")]])])
  ∧ (Json.obj [("id", .str "1")]).hasField "name" = false
  ∧ (Json.obj [("id", .str "1")]).hasField "status" = false :=
  ⟨by rfl, by rfl, by rfl⟩

/-- C7 amended: in the nested numeric-string-keyed success shape every
element returned by `get_wan_status` carries an `id` equal to its key,
a `name` (defaulting to `WAN <id>` exactly when the upstream entry has
no name), and a `status` (defaulting to `unknown` exactly when the
upstream entry has no status); a flat `connection` response, in
contrast, is passed through unmodified, with no defaults applied. -/
theorem c7_wan_defaults :
    (∀ (s : S) (d : Json) (cb sc : Option String) (rest : List ReqOutcome)
        (fs : List (String × Json)),
       s.cs.connected = true → s.cs.sessionPresent = true →
       s.world.responses = .response ⟨200, .parsed d, cb, sc⟩ :: rest →
       d.getField "stat" = some (.str "ok") →
       d.getField "response" = some (.obj fs) →
       (∀ p ∈ fs, pyIsDigit p.1 = true → ∃ g, p.2 = Json.obj g) →
       ∃ L, (getWanStatus s).1 = .ok (.obj [("connection", .arr L)])
         ∧ ∀ j ∈ L, ∃ k g, pyIsDigit k = true ∧ (k, Json.obj g) ∈ fs
             ∧ j.getField "id" = some (.str k)
             ∧ j.getField "name" = some ((lookupField g "name").getD (.str ("WAN " ++ k)))
             ∧ j.getField "status" = some ((lookupField g "status").getD (.str "unknown")))
  ∧ (∀ (s : S) (d : Json) (cb sc : Option String) (rest : List ReqOutcome),
       s.cs.connected = true → s.cs.sessionPresent = true →
       s.world.responses = .response ⟨200, .parsed d, cb, sc⟩ :: rest →
       d.getField "stat" = none → d.hasField "connection" = true →
       (getWanStatus s).1 = .ok d) := by
  constructor
  · intro s d cb sc rest fs hc hs hr hstat hresp hobjs
    have hok : jsonFieldIsStr d "stat" "ok" = true := by
      simp [jsonFieldIsStr_of_getField hstat]
    have hfail : jsonFieldIsStr d "stat" "fail" = false := by
      simp [jsonFieldIsStr_of_getField hstat]
    have hf : fail401 d = false := by simp [fail401, hfail]
    have h1 := makeApiRequest_plain s d cb sc rest hc hs hr hf
    obtain ⟨L, hL, hback, _⟩ := processWanItems_elems fs hobjs
    refine ⟨L, ?_, ?_⟩
    · simp [getWanStatus, h1, wanNormalize, hfail, hok, hresp, Json.hasField, hL]
    · intro j hj
      obtain ⟨k, g, h1k, h2k, rfl⟩ := hback j hj
      exact ⟨k, g, h1k, h2k,
        by simp [Json.getField, defaultedWan_id],
        by simp [Json.getField, defaultedWan_name],
        by simp [Json.getField, defaultedWan_status]⟩
  · intro s d cb sc rest hc hs hr hstat hconn
    have hfail : jsonFieldIsStr d "stat" "fail" = false := by simp [jsonFieldIsStr, hstat]
    have hok : jsonFieldIsStr d "stat" "ok" = false := by simp [jsonFieldIsStr, hstat]
    have hf : fail401 d = false := by simp [fail401, hfail]
    have h1 := makeApiRequest_plain s d cb sc rest hc hs hr hf
    simp [getWanStatus, h1, wanNormalize, hfail, hok, hconn]

theorem c7_wan_defaults_witness :
    (∃ L, (getWanStatus (connectedS [sampleResp wanNested12] [])).1
        = .ok (.obj [("connection", .arr L)])
      ∧ ∀ j ∈ L, ∃ k g, pyIsDigit k = true
          ∧ (k, Json.obj g) ∈ [("1", Json.obj [("name", Json.str "A")]),
                               ("2", Json.obj [("name", Json.str "B")])]
          ∧ j.getField "id" = some (.str k)
          ∧ j.getField "name" = some ((lookupField g "name").getD (.str ("WAN " ++ k)))
          ∧ j.getField "status" = some ((lookupField g "status").getD (.str "unknown")))
  ∧ (getWanStatus (connectedS [sampleResp flatNoName] [])).1 = .ok flatNoName := by
  constructor
  · refine c7_wan_defaults.1 _ wanNested12 none none [] _ rfl rfl (by rfl) (by rfl) (by rfl) ?_
    intro p hp hd
    rcases List.mem_cons.mp hp with rfl | hp2
    · exact ⟨_, rfl⟩
    · rcases List.mem_cons.mp hp2 with rfl | hp3
      · exact ⟨_, rfl⟩
      · cases hp3
  · exact c7_wan_defaults.2 _ flatNoName none none [] rfl rfl (by rfl) (by rfl) (by rfl)

/-! ### Claim theorems: traffic placeholders (C4) -/

/-- C4 counterexample: `get_wan_status` knows interfaces 1 and 2, the
traffic endpoint succeeds but reports interface 1 only, and the result
of `get_traffic_stats` contains no entry for interface 2 — no
zero-valued placeholder is synthesized for an interface omitted from a
successful traffic response. -/
theorem c4_omitted_interface_counterexample :
    (getTrafficStats (connectedS [sampleResp wanNested12, sampleResp trafficOnly1] [])).1
      = .ok (.obj [("stats", .arr
          [.obj [("wan_id", .str "1"), ("name", .str "A"),
                 ("rx_bytes", .num 5), ("tx_bytes", .num 6),
                 ("rx_rate", .num 0), ("tx_rate", .num 0),
                 ("unit", .str "bytes")]])])
  ∧ (getWanStatus (connectedS [sampleResp wanNested12] [])).1
      = .ok (.obj [("connection", .arr
          [.obj [("name", .str "A"), ("id", .str "1"), ("status", .str "unknown")],
           .obj [("name", .str "B"), ("id", .str "2"), ("status", .str "unknown")]])])
  ∧ statsWanIds (.obj [("stats", .arr
          [.obj [("wan_id", .str "1"), ("name", .str "A"),
                 ("rx_bytes", .num 5), ("tx_bytes", .num 6),
                 ("rx_rate", .num 0), ("tx_rate", .num 0),
                 ("unit", .str "bytes")]])]) = [.str "1"]
  ∧ connIds (.obj [("connection", .arr
          [.obj [("name", .str "A"), ("id", .str "1"), ("status", .str "unknown")],
           .obj [("name", .str "B"), ("id", .str "2"), ("status", .str "unknown")]])])
      = [.str "1", .str "2"]
  ∧ Json.str "2" ∉ [Json.str "1"] := by
  refine ⟨by rfl, by rfl, by rfl, by rfl, ?_⟩
  simp

/-- C4 amended: the cross-referencing with the interfaces known from
`get_wan_status` happens only when neither traffic endpoint yields a
usable entry: in that case every known interface receives a
zero-valued placeholder (and only then); an interface omitted from a
successful traffic response simply has no entry. -/
theorem c4_zero_placeholders_on_total_failure :
    ∀ (s : S) (d f1 f2 : Json) (cb sc : Option String) (rest : List ReqOutcome)
      (fs : List (String × Json)),
      s.cs.connected = true → s.cs.sessionPresent = true →
      s.world.responses = .response ⟨200, .parsed d, cb, sc⟩
          :: .response ⟨200, .parsed f1, cb, sc⟩ :: .response ⟨200, .parsed f2, cb, sc⟩ :: rest →
      d.getField "stat" = some (.str "ok") → d.getField "response" = some (.obj fs) →
      (∀ p ∈ fs, pyIsDigit p.1 = true → ∃ g, p.2 = Json.obj g) →
      f1.getField "stat" = some (.str "fail") → jsonFieldIsNum f1 "code" 401 = false →
      f2.getField "stat" = some (.str "fail") → jsonFieldIsNum f2 "code" 401 = false →
      ∃ wi, (getTrafficStats s).1
            = .ok (if wi.isEmpty then statsEmpty else .obj [("stats", .arr (placeholderStats wi))])
        ∧ (∀ p ∈ fs, pyIsDigit p.1 = true → ∃ q ∈ wi, primKeyEq q.1 (.str p.1) = true)
        ∧ (∀ q ∈ wi, ∃ e ∈ placeholderStats wi, e.getField "wan_id" = some q.1)
        ∧ (∀ e ∈ placeholderStats wi,
              e.getField "rx_bytes" = some (.num 0) ∧ e.getField "tx_bytes" = some (.num 0)
            ∧ e.getField "rx_rate" = some (.num 0) ∧ e.getField "tx_rate" = some (.num 0)) := by
  intro s d f1 f2 cb sc rest fs hc hs hr hstat hresp hobjs hf1 hcode1 hf2 hcode2
  have hok : jsonFieldIsStr d "stat" "ok" = true := by
    simp [jsonFieldIsStr_of_getField hstat]
  have hfaild : jsonFieldIsStr d "stat" "fail" = false := by
    simp [jsonFieldIsStr_of_getField hstat]
  have hfD : fail401 d = false := by simp [fail401, hfaild]
  have hok1 : jsonFieldIsStr f1 "stat" "ok" = false := by
    simp [jsonFieldIsStr_of_getField hf1]
  have hff1 : fail401 f1 = false := by simp [fail401, hcode1]
  have hok2 : jsonFieldIsStr f2 "stat" "ok" = false := by
    simp [jsonFieldIsStr_of_getField hf2]
  have hff2 : fail401 f2 = false := by simp [fail401, hcode2]
  have h1 := makeApiRequest_plain s d cb sc
    (.response ⟨200, .parsed f1, cb, sc⟩ :: .response ⟨200, .parsed f2, cb, sc⟩ :: rest)
    hc hs hr hfD
  have h2 := makeApiRequest_plain
    (consume1 s (.response ⟨200, .parsed f1, cb, sc⟩ :: .response ⟨200, .parsed f2, cb, sc⟩ :: rest))
    f1 cb sc (.response ⟨200, .parsed f2, cb, sc⟩ :: rest)
    (by simpa [consume1_cs] using hc) (by simpa [consume1_cs] using hs)
    (consume1_responses _ _) hff1
  have h3 := makeApiRequest_plain
    (consume1 (consume1 s (.response ⟨200, .parsed f1, cb, sc⟩
        :: .response ⟨200, .parsed f2, cb, sc⟩ :: rest)) (.response ⟨200, .parsed f2, cb, sc⟩ :: rest))
    f2 cb sc rest
    (by simpa [consume1_cs] using hc) (by simpa [consume1_cs] using hs)
    (consume1_responses _ _) hff2
  obtain ⟨L, hL, hback, hfwd⟩ := processWanItems_elems fs hobjs
  have hwan : getWanStatus s = (.ok (.obj [("connection", .arr L)]),
      consume1 s (.response ⟨200, .parsed f1, cb, sc⟩ :: .response ⟨200, .parsed f2, cb, sc⟩ :: rest)) := by
    simp [getWanStatus, h1, wanNormalize, hfaild, hok, hresp, Json.hasField, hL]
  have hLshape : ∀ c ∈ L, ∃ fields, c = Json.obj fields
      ∧ (∃ a, c.getField "id" = some (.str a)) ∧ (c.getField "name").isSome = true := by
    intro c hcL
    obtain ⟨k, g, hdig, hmem, rfl⟩ := hback c hcL
    exact ⟨defaultedWanFields k g, rfl, ⟨k, by simp [Json.getField, defaultedWan_id]⟩,
           by simp [Json.getField, defaultedWan_name]⟩
  obtain ⟨wi, hwi⟩ := collectConns_ok L [] hLshape
  refine ⟨wi, ?_, ?_, ?_, ?_⟩
  · simp [getTrafficStats, hwan, collectWanInterfaces, Json.getField, lookupField, hwi,
          h2, h3, trafficAttempt1, trafficAttempt2, hok1, hok2, apply_ite]
    cases wi <;> simp
  · intro p hp hdig
    obtain ⟨g, hg⟩ := hobjs p hp hdig
    have hmemL : Json.obj (defaultedWanFields p.1 g) ∈ L := hfwd p hp hdig g hg
    exact collectConns_covers L [] wi hwi _ hmemL (.str p.1)
      ((lookupField g "name").getD (.str ("WAN " ++ p.1)))
      (by simp [Json.getField, defaultedWan_id]) (by simp [Json.getField, defaultedWan_name])
      trivial
  · intro q hq
    simp only [placeholderStats]
    refine ⟨_, List.mem_map_of_mem _ hq, ?_⟩
    simp [Json.getField, lookupField]
  · intro e he
    simp only [placeholderStats, List.mem_map] at he
    obtain ⟨p, hp, rfl⟩ := he
    refine ⟨?_, ?_, ?_, ?_⟩ <;> simp [Json.getField, lookupField]

theorem c4_zero_placeholders_on_total_failure_witness :
    ∃ wi, (getTrafficStats (connectedS
            [sampleResp wanNested12, sampleResp failBody, sampleResp failBody] [])).1
          = .ok (if wi.isEmpty then statsEmpty else .obj [("stats", .arr (placeholderStats wi))])
      ∧ (∀ p ∈ [("1", Json.obj [("name", Json.str "A")]), ("2", Json.obj [("name", Json.str "B")])],
            pyIsDigit p.1 = true → ∃ q ∈ wi, primKeyEq q.1 (.str p.1) = true)
      ∧ (∀ q ∈ wi, ∃ e ∈ placeholderStats wi, e.getField "wan_id" = some q.1)
      ∧ (∀ e ∈ placeholderStats wi,
            e.getField "rx_bytes" = some (.num 0) ∧ e.getField "tx_bytes" = some (.num 0)
          ∧ e.getField "rx_rate" = some (.num 0) ∧ e.getField "tx_rate" = some (.num 0)) := by
  refine c4_zero_placeholders_on_total_failure _ wanNested12 failBody failBody none none [] _
    rfl rfl (by rfl) (by rfl) (by rfl) ?_ (by rfl) (by rfl) (by rfl) (by rfl)
  intro p hp hd
  rcases List.mem_cons.mp hp with rfl | hp2
  · exact ⟨_, rfl⟩
  · rcases List.mem_cons.mp hp2 with rfl | hp3
    · exact ⟨_, rfl⟩
    · cases hp3

end Peplink
